import Mathlib

/-!
Shallow embedding of the Plant Identification and Care Guide single-page
application (src/src/App.tsx).  The component keeps React state
(selectedImage, loading, isStreaming, plantInfo, error) and exposes the
operations startCamera, stopCamera, captureImage, identifyPlant and
handleImageUpload.  We embed:

  * the static plant catalog `plantDatabase` as an association list, with
    lookup `dbLookup` modelling the TypeScript indexing
    `plantDatabase[plantType]` (which yields undefined, i.e. `none`, on a
    missing key);
  * the pure file-name classifier inside `identifyPlant` as
    `identifyPlantType`;
  * the session state as a structure `AppState`, the stream attached to the video element abstracted to the boolean `srcObject`, the data URI of
    the selected image abstracted to the source file name, and the set of
    in-flight identification requests as a FIFO list `pending` of file
    names (the artificial 1.5 s delay makes completions fire in start
    order);
  * each handler as a state transformer, and the asynchronous
    `identifyPlant` split into its synchronous prefix `identifyStart`
    (runs before the await) and its resolution `identifyResolve` (runs
    after the delay, including the finally block);
  * the event-driven UI as a transition function `applyEvent` over events
    (upload, camera start success/failure, capture, close camera, and
    completion of the oldest in-flight identification), with reachable
    states given by running event traces from `initState`.
-/

/-- Record type of a catalog entry, from the TypeScript interface
`PlantInfo`. -/
structure PlantInfo where
  name : String
  watering : String
  light : String
  diseases : List String
  benefits : List String
  isPoisonous : Bool
  treatment : String
deriving DecidableEq

/-- The six authored catalog entries, from the literal `plantDatabase`
object. -/
def plantDatabase : List (String × PlantInfo) :=
  [ ("mustard",
     { name := "Mustard Plant (Brassica juncea)"
       watering := "Keep soil consistently moist but not waterlogged. Water when top inch of soil feels dry."
       light := "Full sun to partial shade. Requires 6-8 hours of direct sunlight daily for optimal growth."
       diseases := ["Downy mildew", "White rust", "Alternaria leaf spot", "Bacterial leaf spot"]
       benefits := ["Rich in vitamins A, C, and K", "High in antioxidants",
                    "Anti-inflammatory properties", "Supports digestive health",
                    "Good source of fiber"]
       isPoisonous := false
       treatment := "For fungal diseases, remove infected leaves and improve air circulation. Apply copper-based fungicide for severe cases. Ensure proper spacing between plants to prevent disease spread." }),
    ("peaceLily",
     { name := "Peace Lily (Spathiphyllum)"
       watering := "Keep soil moist but not waterlogged. Water when top inch of soil is dry."
       light := "Thrives in medium to low indirect light. Avoid direct sunlight."
       diseases := ["Leaf spot", "Root rot", "Powdery mildew"]
       benefits := ["Air purifying qualities", "Removes toxins like benzene and formaldehyde",
                    "Increases humidity", "Reduces stress"]
       isPoisonous := true
       treatment := "For leaf spot, remove affected leaves and improve air circulation. For root rot, reduce watering and repot if necessary." }),
    ("rose",
     { name := "Rose (Rosa)"
       watering := "Water deeply once a week, more often in hot weather."
       light := "Full sun, at least 6 hours of direct sunlight daily."
       diseases := ["Black spot", "Powdery mildew", "Rust"]
       benefits := ["Beautiful flowers", "Symbol of love and beauty",
                    "Can be used in herbal remedies"]
       isPoisonous := false
       treatment := "Prune affected areas and apply fungicides as needed." }),
    ("tulip",
     { name := "Tulip (Tulipa)"
       watering := "Water when the top inch of soil is dry, especially during blooming."
       light := "Full sun to partial shade."
       diseases := ["Botrytis blight", "Tulip fire"]
       benefits := ["Bright and colorful flowers", "Easy to grow", "Attracts pollinators"]
       isPoisonous := true
       treatment := "Remove affected plants and avoid overwatering." }),
    ("fern",
     { name := "Fern (Pteridophyta)"
       watering := "Keep soil consistently moist but not soggy."
       light := "Prefers indirect light; avoid direct sunlight."
       diseases := ["Leaf spot", "Root rot"]
       benefits := ["Air purifying qualities", "Adds greenery to indoor spaces",
                    "Low maintenance"]
       isPoisonous := false
       treatment := "Remove dead fronds and ensure proper drainage." }),
    ("cactus",
     { name := "Cactus (Cactaceae)"
       watering := "Water sparingly; allow soil to dry out completely between waterings."
       light := "Full sun; requires bright light."
       diseases := ["Cactus rot", "Mealybugs"]
       benefits := ["Low water requirements", "Unique appearance",
                    "Can thrive in dry conditions"]
       isPoisonous := false
       treatment := "Remove affected areas and ensure proper drainage." }) ]

/-- Indexing `plantDatabase[key]` in TypeScript: the value at the key, or
undefined (`none`) when the key is absent. -/
def dbLookup (key : String) : Option PlantInfo :=
  (plantDatabase.find? (fun p => p.1 == key)).map Prod.snd

/-- Whether `pat` occurs as a prefix of `hay` (on character lists). -/
def startsWithChars : List Char → List Char → Bool
  | [], _ => true
  | _ :: _, [] => false
  | a :: as, b :: bs => a == b && startsWithChars as bs

/-- Whether `pat` occurs as a contiguous substring of `hay` (on character
lists); the empty pattern occurs everywhere. -/
def hasSubChars (pat : List Char) : List Char → Bool
  | [] => pat.isEmpty
  | c :: rest => startsWithChars pat (c :: rest) || hasSubChars pat rest

/-- JavaScript `s.includes(pat)`: substring membership on strings. -/
def stringIncludes (s pat : String) : Bool :=
  hasSubChars pat.data s.data

/-- JavaScript `s.toLowerCase()`, character by character (the six keywords
are ASCII, where `Char.toLower` agrees with JavaScript). -/
def strToLower (s : String) : String :=
  ⟨s.data.map Char.toLower⟩

/-- The pure classifier inside `identifyPlant`: lower-case the file name,
then run the ordered if/else chain of substring tests, first match
winning; `unknown` when nothing matches. -/
def identifyPlantType (name : String) : String :=
  let fileName := strToLower name
  if stringIncludes fileName "mustard" then "mustard"
  else if stringIncludes fileName "peace" || stringIncludes fileName "lily" then "peaceLily"
  else if stringIncludes fileName "rose" then "rose"
  else if stringIncludes fileName "tulip" then "tulip"
  else if stringIncludes fileName "fern" then "fern"
  else if stringIncludes fileName "cactus" then "cactus"
  else "unknown"

example : identifyPlantType "my_rose.jpg" = "rose" := by decide
example : identifyPlantType "PeaceLily.PNG" = "peaceLily" := by decide
example : identifyPlantType "unknown_plant.png" = "unknown" := by decide
example : identifyPlantType "capture.jpg" = "unknown" := by decide

/-- The error message set when the classifier resolves to `unknown`. -/
def unknownMsg : String :=
  "Unable to identify plant. Please ensure the image is clear and try again."

/-- The component state: the five `useState` fields, plus `srcObject`
(whether a media stream is attached to the video element, the guard
`videoRef.current.srcObject` that `stopCamera` reads), plus the FIFO list
`pending` of file names of in-flight `identifyPlant` calls awaiting their
delay.  The data URI held by `selectedImage` is abstracted to the name of
the file (or capture) it came from. -/
structure AppState where
  selectedImage : Option String
  loading : Bool
  isStreaming : Bool
  srcObject : Bool
  plantInfo : Option PlantInfo
  error : Option String
  pending : List String
deriving DecidableEq

/-- The initial state: every `useState` starts at `null` or `false`, no
stream attached, no request in flight. -/
def initState : AppState :=
  { selectedImage := none, loading := false, isStreaming := false,
    srcObject := false, plantInfo := none, error := none, pending := [] }

/-- Model of `startCamera`: the `ok` flag tells whether `getUserMedia` succeeded.
On success the stream is attached and `isStreaming` is set; on failure the
catch block logs and raises a blocking alert (returned as `true` in the
second component; its text is a fixed string, abstracted here) and touches
no state.  The function is total: the catch block swallows the exception,
so nothing propagates to the caller. -/
def startCamera (ok : Bool) (s : AppState) : AppState × Bool :=
  if ok then ({ s with srcObject := true, isStreaming := true }, false)
  else (s, true)

/-- Model of `stopCamera`: when a stream is attached, stop its tracks, detach it and
clear `isStreaming`; otherwise the guard fails and nothing happens. -/
def stopCamera (s : AppState) : AppState :=
  if s.srcObject then { s with srcObject := false, isStreaming := false } else s

/-- The synchronous prefix of `identifyPlant`, up to the awaited delay:
`setLoading(true); setError(null)` (note: `plantInfo` is not written
here). -/
def identifyStart (s : AppState) : AppState :=
  { s with loading := true, error := none }

/-- The resolution of `identifyPlant` after the delay, for the file name
the call captured: on `unknown` set the fixed error and clear `plantInfo`;
otherwise `setPlantInfo(plantDatabase[plantType])`; in both branches the
finally block ends with `setLoading(false)`.  (The try block of the
embedded code cannot throw, so the generic catch branch is dead.) -/
def identifyResolve (s : AppState) (fileName : String) : AppState :=
  let plantType := identifyPlantType fileName
  if plantType = "unknown" then
    { s with error := some unknownMsg, plantInfo := none, loading := false }
  else
    { s with plantInfo := dbLookup plantType, loading := false }

/-- The whole `identifyPlant(file)` call when it runs to completion with
no other event interleaved during its delay. -/
def identifyPlant (s : AppState) (fileName : String) : AppState :=
  identifyResolve (identifyStart s) fileName

/-- Model of `handleImageUpload`: `event.target.files?.[0]` (`none` models a
missing file list).  With no file selected nothing runs; with a file, the
reader stores its data URI in `selectedImage` and `identifyPlant(file)`
starts, joining the in-flight queue. -/
def handleImageUpload (files : Option (List String)) (s : AppState) : AppState :=
  match files.bind List.head? with
  | none => s
  | some fileName =>
      { identifyStart s with
        selectedImage := some fileName,
        pending := s.pending ++ [fileName] }

/-- Model of `captureImage`: draw the frame, store its data URI in `selectedImage`,
`stopCamera()`, then hand the synthetic file "capture.jpg" to
`identifyPlant`. -/
def captureImage (s : AppState) : AppState :=
  let s1 := stopCamera { s with selectedImage := some "capture.jpg" }
  { identifyStart s1 with pending := s1.pending ++ ["capture.jpg"] }

/-- The user-visible events of the component, the asynchronous completion
of the oldest in-flight identification included. -/
inductive Event where
  | upload (files : Option (List String))
  | cameraOk
  | cameraFail
  | capture
  | closeCamera
  | complete
deriving DecidableEq

/-- One step of the event-driven UI. -/
def applyEvent (s : AppState) : Event → AppState
  | Event.upload files => handleImageUpload files s
  | Event.cameraOk => (startCamera true s).1
  | Event.cameraFail => (startCamera false s).1
  | Event.capture => captureImage s
  | Event.closeCamera => stopCamera s
  | Event.complete =>
      match s.pending with
      | [] => s
      | fileName :: rest => { identifyResolve s fileName with pending := rest }

/-- Run a trace of events from a state. -/
def run (s : AppState) (tr : List Event) : AppState :=
  tr.foldl applyEvent s

/-- A state is reachable when some event trace from the initial state
produces it. -/
def Reachable (s : AppState) : Prop :=
  ∃ tr : List Event, run initState tr = s

/-! ## Specification-level rule table for the classifier -/

/-- Modelled from the spec: the fixed, ordered list of
(substring-set, key) rules of the identification stub. -/
def specRules : List (List String × String) :=
  [ (["mustard"], "mustard"),
    (["peace", "lily"], "peaceLily"),
    (["rose"], "rose"),
    (["tulip"], "tulip"),
    (["fern"], "fern"),
    (["cactus"], "cactus") ]

/-- Modelled from the spec: lower-case the file name, then return the key
of the first rule one of whose substrings occurs in it, and "unknown" when
no rule matches. -/
def specIdentify (name : String) : String :=
  match specRules.find? (fun r => r.1.any (fun kw => stringIncludes (strToLower name) kw)) with
  | some r => r.2
  | none => "unknown"

/-- C1: identify lower-cases the file name and applies the fixed ordered
rule list with first match winning; a name containing none of the six
keywords yields unknown.  The classifier embedded from the source equals
the first-match semantics of the rule table written from the spec. -/
theorem identifyPlantType_eq_specIdentify (name : String) :
    identifyPlantType name = specIdentify name := by
  cases h1 : stringIncludes (strToLower name) "mustard" <;>
  cases h2 : stringIncludes (strToLower name) "peace" <;>
  cases h3 : stringIncludes (strToLower name) "lily" <;>
  cases h4 : stringIncludes (strToLower name) "rose" <;>
  cases h5 : stringIncludes (strToLower name) "tulip" <;>
  cases h6 : stringIncludes (strToLower name) "fern" <;>
  cases h7 : stringIncludes (strToLower name) "cactus" <;>
  simp [identifyPlantType, specIdentify, specRules, List.find?, List.any,
        h1, h2, h3, h4, h5, h6, h7]

/-- C5: for each of the six catalog keys, lookup returns a profile whose
isPoisonous flag equals the authored value: true for peaceLily and tulip,
false for mustard, rose, fern and cactus. -/
theorem dbLookup_isPoisonous_flags :
    (dbLookup "mustard").map PlantInfo.isPoisonous = some false ∧
    (dbLookup "peaceLily").map PlantInfo.isPoisonous = some true ∧
    (dbLookup "rose").map PlantInfo.isPoisonous = some false ∧
    (dbLookup "tulip").map PlantInfo.isPoisonous = some true ∧
    (dbLookup "fern").map PlantInfo.isPoisonous = some false ∧
    (dbLookup "cactus").map PlantInfo.isPoisonous = some false := by
  decide

/-- C7: stopCamera is idempotent (a second call in a row changes nothing)
and is a no-op when no stream is attached. -/
theorem stopCamera_idempotent (s : AppState) :
    stopCamera (stopCamera s) = stopCamera s ∧
    (s.srcObject = false → stopCamera s = s) := by
  constructor
  · by_cases h : s.srcObject = true <;> simp [stopCamera, h]
  · intro h; simp [stopCamera, h]

/-- Witness for C7 at the initial state, which has no stream attached. -/
theorem stopCamera_idempotent_witness :
    stopCamera (stopCamera initState) = stopCamera initState ∧
    stopCamera initState = initState :=
  ⟨(stopCamera_idempotent initState).1,
   (stopCamera_idempotent initState).2 rfl⟩

/-- C8: a failed startCamera raises the user-visible alert, returns the
session state unchanged (in particular isStreaming stays false when it was
false), and, being a total function whose catch block swallows the
exception, propagates no exception to its caller. -/
theorem startCamera_fail_frame (s : AppState) :
    (startCamera false s).1 = s ∧
    (startCamera false s).2 = true ∧
    (s.isStreaming = false → ((startCamera false s).1).isStreaming = false) := by
  refine ⟨rfl, rfl, fun h => h⟩

/-- Witness for C8 at the initial state, where isStreaming is false. -/
theorem startCamera_fail_frame_witness :
    (startCamera false initState).1 = initState ∧
    (startCamera false initState).2 = true ∧
    ((startCamera false initState).1).isStreaming = false :=
  ⟨(startCamera_fail_frame initState).1,
   (startCamera_fail_frame initState).2.1,
   (startCamera_fail_frame initState).2.2 rfl⟩

/-- C10: the upload handler with an empty or absent file list changes no
session state field and starts no identification. -/
theorem handleImageUpload_no_file_noop (s : AppState) (files : Option (List String))
    (h : files = none ∨ files = some []) :
    handleImageUpload files s = s := by
  rcases h with h | h <;> subst h <;> rfl

/-- Witness for C10: an absent file list at the initial state. -/
theorem handleImageUpload_no_file_noop_witness :
    handleImageUpload none initState = initState :=
  handleImageUpload_no_file_noop initState none (Or.inl rfl)

/-- A prior session state in which a result is displayed: the Rose profile
was resolved earlier. -/
def priorResultState : AppState :=
  { initState with plantInfo := dbLookup "rose", selectedImage := some "my_rose.jpg" }

/-- C3 as stated is false: the synchronous prefix of identifyPlant
(everything before the awaited delay) sets loading and clears error, but
it does not clear the prior result; from a state displaying the Rose
profile, the profile is still set before the request resolves. -/
theorem identifyStart_keeps_result_cex :
    ¬ ((identifyStart priorResultState).plantInfo = none ∧
       (identifyStart priorResultState).error = none) := by
  intro h
  exact absurd h.1 (by decide)

/-- C3 amended: starting an identification request clears the prior error
and sets loading before the request resolves, but leaves the prior result
in place; the result is only replaced or cleared when the request
resolves. -/
theorem identifyStart_clears_error_only (s : AppState) :
    (identifyStart s).error = none ∧
    (identifyStart s).loading = true ∧
    (identifyStart s).plantInfo = s.plantInfo :=
  ⟨rfl, rfl, rfl⟩

/-- C6: an identification that resolves to unknown leaves the displayed
image preview unchanged; the whole identifyPlant call touches only the
loading, error and result fields, so the preview, the camera flags and the
in-flight queue keep their prior values. -/
theorem identifyPlant_unknown_frame (s : AppState) (fileName : String)
    (h : identifyPlantType fileName = "unknown") :
    (identifyPlant s fileName).selectedImage = s.selectedImage ∧
    (identifyPlant s fileName).isStreaming = s.isStreaming ∧
    (identifyPlant s fileName).srcObject = s.srcObject ∧
    (identifyPlant s fileName).pending = s.pending := by
  simp [identifyPlant, identifyStart, identifyResolve, h]

/-- Witness for C6: the capture file name resolves to unknown and the
previously displayed preview survives. -/
theorem identifyPlant_unknown_frame_witness :
    identifyPlantType "capture.jpg" = "unknown" ∧
    ((identifyPlant priorResultState "capture.jpg").selectedImage
        = priorResultState.selectedImage ∧
     (identifyPlant priorResultState "capture.jpg").isStreaming
        = priorResultState.isStreaming ∧
     (identifyPlant priorResultState "capture.jpg").srcObject
        = priorResultState.srcObject ∧
     (identifyPlant priorResultState "capture.jpg").pending
        = priorResultState.pending) :=
  ⟨by decide, identifyPlant_unknown_frame priorResultState "capture.jpg" (by decide)⟩

/-- C4: uploading a file whose name matches no keyword ends, after the
delay, in the failed state: the fixed error message is set, the result is
cleared and loading is off. -/
theorem unknown_upload_fails (s : AppState) (fileName : String)
    (hp : s.pending = []) (h : identifyPlantType fileName = "unknown") :
    (run s [Event.upload (some [fileName]), Event.complete]).error = some unknownMsg ∧
    (run s [Event.upload (some [fileName]), Event.complete]).plantInfo = none ∧
    (run s [Event.upload (some [fileName]), Event.complete]).loading = false := by
  simp [run, applyEvent, handleImageUpload, identifyStart, identifyResolve, hp, h]

/-- Witness for C4: the spec scenario, uploading "unknown_plant.png" from
the initial state. -/
theorem unknown_upload_fails_witness :
    (initState.pending = [] ∧ identifyPlantType "unknown_plant.png" = "unknown") ∧
    ((run initState [Event.upload (some ["unknown_plant.png"]), Event.complete]).error
        = some unknownMsg ∧
     (run initState [Event.upload (some ["unknown_plant.png"]), Event.complete]).plantInfo
        = none ∧
     (run initState [Event.upload (some ["unknown_plant.png"]), Event.complete]).loading
        = false) :=
  ⟨⟨rfl, by decide⟩,
   unknown_upload_fails initState "unknown_plant.png" rfl (by decide)⟩

/-- Helper: the classifier only ever returns one of the six catalog keys
or "unknown". -/
theorem identifyPlantType_cases (name : String) :
    identifyPlantType name = "mustard" ∨ identifyPlantType name = "peaceLily" ∨
    identifyPlantType name = "rose" ∨ identifyPlantType name = "tulip" ∨
    identifyPlantType name = "fern" ∨ identifyPlantType name = "cactus" ∨
    identifyPlantType name = "unknown" := by
  simp only [identifyPlantType]
  repeat' split
  all_goals simp

/-- C9: every non-unknown key the classifier can return is a key of the
catalog, so the lookup performed on a non-unknown key never comes back
empty and the lookup-failure branch is unreachable. -/
theorem identifyPlantType_key_in_catalog (name : String)
    (h : identifyPlantType name ≠ "unknown") :
    (dbLookup (identifyPlantType name)).isSome = true := by
  rcases identifyPlantType_cases name with hc | hc | hc | hc | hc | hc | hc <;>
    first
      | (rw [hc]; decide)
      | exact absurd hc h

/-- Witness for C9 at the file name "my_rose.jpg". -/
theorem identifyPlantType_key_in_catalog_witness :
    identifyPlantType "my_rose.jpg" ≠ "unknown" ∧
    (dbLookup (identifyPlantType "my_rose.jpg")).isSome = true :=
  ⟨by decide, identifyPlantType_key_in_catalog "my_rose.jpg" (by decide)⟩

/-- How many of the three render-driving fields are set: the loading flag,
the error message and the result profile. -/
def flagCount (s : AppState) : Nat :=
  (cond s.loading 1 0) + (cond s.error.isSome 1 0) + (cond s.plantInfo.isSome 1 0)

/-- C2 as stated is false.  Two violations are reachable: uploading again
while a result is displayed leaves the result set during loading, and two
overlapping uploads whose first resolves to unknown and whose second
succeeds leave error and result simultaneously set (the success branch
never clears error; only the start of a request does). -/
theorem reachable_mutual_exclusion_cex :
    ¬ (∀ s : AppState, Reachable s →
         flagCount s ≤ 1 ∧ ¬ (s.error.isSome = true ∧ s.plantInfo.isSome = true)) := by
  intro hAll
  have h := hAll
    (run initState
      [Event.upload (some ["plant.png"]), Event.upload (some ["my_rose.jpg"]),
       Event.complete, Event.complete])
    ⟨[Event.upload (some ["plant.png"]), Event.upload (some ["my_rose.jpg"]),
      Event.complete, Event.complete], rfl⟩
  exact absurd h (by decide)

/-- Whether an event begins a new identification request (a file upload
that actually carries a file, or a capture). -/
def startsIdent : Event → Bool
  | Event.upload files => (files.bind List.head?).isSome
  | Event.capture => true
  | _ => false

/-- A trace is sequential from `s` when every event that begins an
identification fires only while no identification is in flight. -/
def seqTrace : AppState → List Event → Bool
  | _, [] => true
  | s, e :: rest =>
      (!(startsIdent e) || s.pending.isEmpty) && seqTrace (applyEvent s e) rest

/-- The inductive invariant of sequential executions: at most one request
in flight; loading is off while nothing is in flight; the error is clear
while a request is in flight; and error and result are never both set. -/
def SeqInv (s : AppState) : Prop :=
  s.pending.length ≤ 1 ∧
  (s.pending = [] → s.loading = false) ∧
  (s.pending ≠ [] → s.error = none) ∧
  (s.error = none ∨ s.plantInfo = none)

/-- One sequential step preserves the invariant. -/
theorem seqInv_step (s : AppState) (e : Event)
    (hinv : SeqInv s) (hseq : startsIdent e = true → s.pending = []) :
    SeqInv (applyEvent s e) := by
  obtain ⟨hlen, hload, herr, hexcl⟩ := hinv
  cases e with
  | upload files =>
      cases hf : files.bind List.head? with
      | none =>
          simpa [applyEvent, handleImageUpload, hf, SeqInv] using
            ⟨hlen, hload, herr, hexcl⟩
      | some fileName =>
          have hp : s.pending = [] := hseq (by simp [startsIdent, hf])
          simp [applyEvent, handleImageUpload, hf, identifyStart, SeqInv, hp]
  | cameraOk =>
      simpa [applyEvent, startCamera, SeqInv] using ⟨hlen, hload, herr, hexcl⟩
  | cameraFail =>
      simpa [applyEvent, startCamera, SeqInv] using ⟨hlen, hload, herr, hexcl⟩
  | capture =>
      have hp : s.pending = [] := hseq rfl
      simp only [applyEvent, captureImage, identifyStart, stopCamera]
      split <;> simp [SeqInv, hp]
  | closeCamera =>
      simp only [applyEvent, stopCamera]
      split <;> simpa [SeqInv] using ⟨hlen, hload, herr, hexcl⟩
  | complete =>
      cases hpend : s.pending with
      | nil =>
          have hid : applyEvent s Event.complete = s := by
            simp [applyEvent, hpend]
          rw [hid]
          exact ⟨hlen, hload, herr, hexcl⟩
      | cons fileName rest =>
          have hrest : rest = [] := by
            rw [hpend, List.length_cons] at hlen
            have h0 : rest.length = 0 := by omega
            exact List.length_eq_zero.mp h0
          have herrnone : s.error = none := herr (by simp [hpend])
          subst hrest
          simp only [applyEvent, hpend, identifyResolve]
          split <;> simp [SeqInv, herrnone]

/-- The invariant holds after running any sequential trace. -/
theorem seqInv_run (tr : List Event) :
    ∀ s : AppState, SeqInv s → seqTrace s tr = true → SeqInv (run s tr) := by
  induction tr with
  | nil => intro s h _; simpa [run] using h
  | cons e rest ih =>
      intro s h hseq
      rw [seqTrace, Bool.and_eq_true, Bool.or_eq_true] at hseq
      have hstep : SeqInv (applyEvent s e) := by
        refine seqInv_step s e h (fun hs => ?_)
        rcases hseq.1 with hguard | hguard
        · rw [hs] at hguard; exact absurd hguard (by decide)
        · exact List.isEmpty_iff.mp hguard
      have hrun : run s (e :: rest) = run (applyEvent s e) rest := rfl
      rw [hrun]
      exact ih (applyEvent s e) hstep hseq.2

/-- C2 amended: in every state reachable by a sequential trace (each
identification starts only while none is in flight), error and result are
never simultaneously set, and the error is never set while loading;
however loading can hold while a prior result is still set, and with
overlapping requests even error and result can both end up set. -/
theorem seq_reachable_error_result_exclusive (tr : List Event)
    (hseq : seqTrace initState tr = true) :
    ((run initState tr).error = none ∨ (run initState tr).plantInfo = none) ∧
    ((run initState tr).loading = true → (run initState tr).error = none) := by
  have hinit : SeqInv initState := by
    refine ⟨by simp [initState], fun _ => rfl, fun h => ?_, Or.inl rfl⟩
    · exact absurd rfl h
  obtain ⟨hlen, hload, herr, hexcl⟩ := seqInv_run tr initState hinit hseq
  refine ⟨hexcl, fun hl => ?_⟩
  by_cases hp : (run initState tr).pending = []
  · rw [hload hp] at hl; exact absurd hl (by decide)
  · exact herr hp

/-- Witness for C2 amended: a sequential upload-and-complete trace for the
Rose scenario. -/
theorem seq_reachable_error_result_exclusive_witness :
    seqTrace initState [Event.upload (some ["my_rose.jpg"]), Event.complete] = true ∧
    (((run initState [Event.upload (some ["my_rose.jpg"]), Event.complete]).error = none ∨
      (run initState [Event.upload (some ["my_rose.jpg"]), Event.complete]).plantInfo = none) ∧
     ((run initState [Event.upload (some ["my_rose.jpg"]), Event.complete]).loading = true →
      (run initState [Event.upload (some ["my_rose.jpg"]), Event.complete]).error = none)) :=
  ⟨by decide,
   seq_reachable_error_result_exclusive
     [Event.upload (some ["my_rose.jpg"]), Event.complete] (by decide)⟩
